import Mathlib

/-!
Verification of the `ngx.command` repository: the `Command` abstraction and the
`CommandDirective` binding layer (`src/command.directive.ts`).

The directive source is embedded directly.  The `Command` class itself
(`src/command.ts`), `command.util` and `command.model` are not part of the
reviewed sources, so their behaviour is modelled from the specification
(sections 3, 4.1, 5, 7 of the design document); every such definition carries a
doc comment starting with `Modelled from the spec:`.
-/

namespace NgxCommand

/-- A JavaScript runtime value, as far as the directive observes it:
`undefined`, `null`, booleans, numbers (as integers), strings, arrays and
opaque object references (identified by a tag). -/
inductive JsValue where
  | undef : JsValue
  | null : JsValue
  | bool (b : Bool) : JsValue
  | num (n : Int) : JsValue
  | str (s : String) : JsValue
  | arr (xs : List JsValue) : JsValue
  | obj (id : Nat) : JsValue

/-- JavaScript truthiness of a `JsValue` (`undefined`, `null`, `false`, `0` and
the empty string are falsy; arrays and objects are always truthy). -/
def truthy : JsValue → Bool
  | JsValue.undef => false
  | JsValue.null => false
  | JsValue.bool b => b
  | JsValue.num n => n != 0
  | JsValue.str s => s != ""
  | JsValue.arr _ => true
  | JsValue.obj _ => true

/-- JavaScript `x || y`: returns `x` when `x` is truthy, otherwise `y`. -/
def jsOr (x y : JsValue) : JsValue :=
  if truthy x then x else y

/-- `Array.isArray` on a `JsValue`. -/
def isArray : JsValue → Bool
  | JsValue.arr _ => true
  | _ => false

/-- A function value produced by `Function.prototype.bind`: the identity of the
underlying function, the bound `this` argument and the arguments curried at
bind time. -/
structure BoundFn where
  fn : Nat
  thisArg : JsValue
  curried : List JsValue

/-- `f.bind(thisArg, ...curried)`. -/
def bindFn (f : Nat) (thisArg : JsValue) (curried : List JsValue) : BoundFn :=
  ⟨f, thisArg, curried⟩

/-- One call of a JavaScript function: which function ran, with which `this`
and which argument list. -/
structure Invocation where
  fn : Nat
  thisArg : JsValue
  args : List JsValue

/-- Calling a bound function with extra arguments: the curried arguments come
first, then the call-site arguments. -/
def invokeBound (b : BoundFn) (args : List JsValue) : Invocation :=
  ⟨b.fn, b.thisArg, b.curried ++ args⟩

/-! ## The Command state machine

`src/command.ts` is not among the reviewed sources; the state machine below is
modelled from the specification (§3 data model, §4.1 `execute`/`subscribe`/
`unsubscribe` contracts, §5 concurrency model, §7 error handling). -/

/-- Modelled from the spec: the state of one `Command` instance
(`src/command.ts` is missing from the reviewed sources).  `pending` counts
in-flight asynchronous invocations, `invocations` counts every time the action
ran, `errors` counts failed settlements, and `canExecuteOut` /
`isExecutingOut` record the values pushed on the two observable signals,
newest first. -/
structure Command where
  allowConcurrent : Bool
  isAsync : Bool
  gate : Bool
  pending : Nat
  subscribed : Bool
  invocations : Nat
  errors : Nat
  canExecuteOut : List Bool
  isExecutingOut : List Bool
deriving DecidableEq, Repr

namespace Command

/-- Modelled from the spec: a freshly constructed, not yet subscribed Command
with the given `allowConcurrentExecution`, `isAsync` and initial gate value. -/
def init (allowConcurrent isAsync gate : Bool) : Command :=
  ⟨allowConcurrent, isAsync, gate, 0, false, 0, 0, [], []⟩

/-- Modelled from the spec: `isExecuting` is true while an in-flight
asynchronous action has not yet settled. -/
def isExecuting (c : Command) : Bool :=
  c.pending != 0

/-- Modelled from the spec: the derived `canExecute` value,
`executabilityGate AND (allowConcurrentExecution OR NOT isExecuting)`. -/
def canExecute (c : Command) : Bool :=
  c.gate && (c.allowConcurrent || !c.isExecuting)

/-- Push the current `canExecute` value on the `canExecute` signal. -/
def emitCan (c : Command) : Command :=
  { c with canExecuteOut := c.canExecute :: c.canExecuteOut }

/-- Push the current `isExecuting` value on the `isExecuting` signal. -/
def emitExec (c : Command) : Command :=
  { c with isExecutingOut := c.isExecuting :: c.isExecutingOut }

/-- Modelled from the spec: `subscribe()` activates the signal plumbing and,
by replay-latest semantics, pushes the current values; re-subscribing is
guarded against double activation. -/
def subscribe (c : Command) : Command :=
  if c.subscribed then c
  else emitCan (emitExec { c with subscribed := true })

/-- Modelled from the spec: a new value arriving on the executability stream;
`canExecute` recomputes synchronously.  After `unsubscribe` the stream
subscription is released, so nothing happens. -/
def gateUpdate (c : Command) (b : Bool) : Command :=
  if !c.subscribed then c
  else emitCan { c with gate := b }

/-- Modelled from the spec: `execute(...)`.  Before `subscribe` (or after
`unsubscribe`) it is a no-op.  A synchronous Command invokes the action
immediately without touching `isExecuting`.  An asynchronous Command ignores
the call when already executing with concurrency disallowed; otherwise it
starts one more in-flight invocation and pushes the updated `isExecuting`
and recomputed `canExecute` values on the signals. -/
def execute (c : Command) : Command :=
  if !c.subscribed then c
  else if !c.isAsync then { c with invocations := c.invocations + 1 }
  else if c.isExecuting && !c.allowConcurrent then c
  else emitCan (emitExec
    { c with pending := c.pending + 1, invocations := c.invocations + 1 })

/-- Modelled from the spec: settlement of one in-flight asynchronous action,
successfully (`ok = true`) or with failure (`ok = false`).  Either way the
in-flight count drops and the updated `isExecuting` and recomputed
`canExecute` values are pushed; `isExecuting` is false once no invocation is
pending.  A failure is counted but does not corrupt the state.  After
`unsubscribe` the signals are silent. -/
def settle (c : Command) (ok : Bool) : Command :=
  if c.pending = 0 then c
  else
    let done := { c with
      pending := c.pending - 1,
      errors := c.errors + (if ok then 0 else 1) }
    if c.subscribed then emitCan (emitExec done) else done

/-- Modelled from the spec: `unsubscribe()` releases all internal
subscriptions and freezes further transitions; idempotent. -/
def unsubscribe (c : Command) : Command :=
  { c with subscribed := false }

end Command

/-- The events a Command reacts to. -/
inductive CEvent where
  | subscribe : CEvent
  | unsubscribe : CEvent
  | execute : CEvent
  | settle (ok : Bool) : CEvent
  | gate (b : Bool) : CEvent
deriving DecidableEq, Repr

/-- One transition of the Command state machine. -/
def Command.step (c : Command) : CEvent → Command
  | CEvent.subscribe => c.subscribe
  | CEvent.unsubscribe => c.unsubscribe
  | CEvent.execute => c.execute
  | CEvent.settle ok => c.settle ok
  | CEvent.gate b => c.gateUpdate b

/-- Run a Command through a list of events. -/
def Command.run (c : Command) (es : List CEvent) : Command :=
  es.foldl Command.step c

/-! ## The directive (`src/command.directive.ts`) -/

/-- The `canExecute` field of a command creator: either a function (identified
by its id) or a plain value (a boolean or an observable reference). -/
inductive CanExec where
  | fn (f : Nat) : CanExec
  | val (v : JsValue) : CanExec

/-- A command creator object, the `CommandCreator` shape of
`{host, execute, canExecute, params, isAsync}` accepted by the
`[ssvCommand]` input.  `execute` is a function id; `canExecute` and `isAsync`
are optional (`none` = the field is `undefined`). -/
structure CommandCreator where
  host : JsValue
  execute : Nat
  canExecute : Option CanExec
  params : JsValue
  isAsync : Option Bool

/-- The value bound to the `[ssvCommand]` input: a `Command` instance, a
command creator, or some other (invalid) defined value; `Option` of this
models a possibly-`undefined` input. -/
inductive CommandInput where
  | cmd (c : Command) : CommandInput
  | creator (cr : CommandCreator) : CommandInput
  | invalid : CommandInput

/-- Modelled from the spec: `isCommand` (from `command.util`, not among the
reviewed sources) recognises exactly the `Command` instances. -/
def isCommand : CommandInput → Bool
  | CommandInput.cmd _ => true
  | _ => false

/-- Modelled from the spec: `isCommandCreator` (from `command.util`, not among
the reviewed sources) recognises exactly the well-formed command creators. -/
def isCommandCreator : CommandInput → Bool
  | CommandInput.creator _ => true
  | _ => false

/-- The executability argument handed to the `Command` constructor by the
creator branch of `ngOnInit`: either the raw `canExecute` field (when it is
not a function) or the result of calling `canExecute.bind(host, params)()`. -/
inductive GateSpec where
  | plain (v : Option CanExec) : GateSpec
  | callOf (b : BoundFn) : GateSpec

/-- The three constructor arguments of the `new Command(execFn, canExec,
isAsync)` call in `ngOnInit`. -/
structure CreatedCommand where
  execFn : BoundFn
  canExec : GateSpec
  isAsync : Bool

/-- The command-creator branch of `ngOnInit`
(`src/command.directive.ts:129-146`): computes
`isAsync = creator.isAsync || creator.isAsync === undefined`,
`execFn = creator.execute.bind(creator.host)`,
`commandParams = this.commandParams || creator.params`, and
`canExec = canExecute instanceof Function ?
canExecute.bind(host, commandParams)() : canExecute`.  Returns the `Command`
constructor arguments together with the directive's updated
`commandParams`. -/
def initFromCreator (directiveParams : JsValue) (cr : CommandCreator) :
    CreatedCommand × JsValue :=
  let isAsync := match cr.isAsync with
    | some b => b
    | none => true
  let execFn := bindFn cr.execute cr.host []
  let params := jsOr directiveParams cr.params
  let canExec := match cr.canExecute with
    | some (CanExec.fn f) => GateSpec.callOf (bindFn f cr.host [params])
    | g => GateSpec.plain g
  (⟨execFn, canExec, isAsync⟩, params)

/-- The result of a successful `ngOnInit`: either the bound `Command`
instance was used directly, or a new Command was created from a creator (with
the directive's resulting `commandParams`). -/
inductive InitResult where
  | usedCommand (c : Command) : InitResult
  | created (cc : CreatedCommand) (params : JsValue) : InitResult

/-- `ngOnInit` (`src/command.directive.ts:122-149`): throws when the
`[ssvCommand]` input is `undefined`; uses it directly when it is a `Command`;
builds a Command from it when it is a command creator; throws otherwise. -/
def ngOnInit (input : Option CommandInput) (directiveParams : JsValue) :
    Except String InitResult :=
  match input with
  | none => Except.error "ssvCommand: [ssvCommand] should be defined!"
  | some i =>
    if isCommand i then
      match i with
      | CommandInput.cmd c => Except.ok (InitResult.usedCommand c)
      | _ => Except.error "unreachable"
    else if isCommandCreator i then
      match i with
      | CommandInput.creator cr =>
        let r := initFromCreator directiveParams cr
        Except.ok (InitResult.created r.1 r.2)
      | _ => Except.error "unreachable"
    else Except.error "ssvCommand: [ssvCommand] is not defined properly!"

/-- The argument list `onClick` (`src/command.directive.ts:190-198`) passes to
`command.execute`: an array value is spread into separate arguments, anything
else is passed as a single argument. -/
def onClick (commandParams : JsValue) : List JsValue :=
  if isArray commandParams then
    match commandParams with
    | JsValue.arr xs => xs
    | v => [v]
  else [commandParams]

/-- A property access `target.f(...)` on a possibly-`undefined` target:
JavaScript throws a `TypeError` when the target is `undefined`. -/
def jsMethodCall (target : Option Command) (f : Command → Command) :
    Except String (Option Command) :=
  match target with
  | none => Except.error "TypeError: cannot read properties of undefined"
  | some c => Except.ok (some (f c))

/-- `ngOnDestroy` (`src/command.directive.ts:200-209`): completes the internal
subjects and calls `_command.unsubscribe()` only behind the `if
(this._command)` guard, so a directive whose `ngOnInit` never ran (command
still `undefined`) is torn down without touching it. -/
def ngOnDestroy (cmd : Option Command) : Except String (Option Command) :=
  if cmd.isSome then jsMethodCall cmd Command.unsubscribe
  else Except.ok cmd

/-- The directive's `disabled` state after `ngOnInit`: line 123 first sets
`disabled = true` unconditionally, then the subscription at lines 163-167 sets
`disabled = !canExecute` on every `canExecute$` emission. -/
def disabledAfterInit (emissions : List Bool) : Bool :=
  emissions.foldl (fun _ e => !e) true

/-! ## Helper lemmas about the Command state machine -/

theorem step_allowConcurrent (c : Command) (e : CEvent) :
    (c.step e).allowConcurrent = c.allowConcurrent := by
  cases e <;>
    simp only [Command.step, Command.subscribe, Command.unsubscribe,
      Command.execute, Command.settle, Command.gateUpdate,
      Command.emitCan, Command.emitExec] <;>
    split_ifs <;> rfl

theorem step_isAsync (c : Command) (e : CEvent) :
    (c.step e).isAsync = c.isAsync := by
  cases e <;>
    simp only [Command.step, Command.subscribe, Command.unsubscribe,
      Command.execute, Command.settle, Command.gateUpdate,
      Command.emitCan, Command.emitExec] <;>
    split_ifs <;> rfl

theorem run_allowConcurrent (c : Command) (es : List CEvent) :
    (c.run es).allowConcurrent = c.allowConcurrent := by
  induction es generalizing c with
  | nil => rfl
  | cons e es ih =>
    simp only [Command.run, List.foldl_cons] at *
    rw [ih, step_allowConcurrent]

theorem run_isAsync (c : Command) (es : List CEvent) :
    (c.run es).isAsync = c.isAsync := by
  induction es generalizing c with
  | nil => rfl
  | cons e es ih =>
    simp only [Command.run, List.foldl_cons] at *
    rw [ih, step_isAsync]

/-- While subscribed, the most recently emitted value of each signal agrees
with the currently derived value. -/
def SignalsInSync (c : Command) : Prop :=
  c.subscribed = true →
    c.canExecuteOut.head? = some c.canExecute ∧
    c.isExecutingOut.head? = some c.isExecuting

theorem signalsInSync_step (c : Command) (e : CEvent) (h : SignalsInSync c) :
    SignalsInSync (c.step e) := by
  cases e with
  | subscribe =>
    by_cases hs : c.subscribed
    · simpa [Command.step, Command.subscribe, hs] using h
    · intro _
      simp [Command.step, Command.subscribe, hs, Command.emitCan,
        Command.emitExec, Command.canExecute, Command.isExecuting]
  | unsubscribe =>
    intro hs
    simp [Command.step, Command.unsubscribe] at hs
  | execute =>
    by_cases hs : c.subscribed
    · by_cases ha : c.isAsync
      · by_cases hp : c.pending = 0
        · intro _
          simp [Command.step, Command.execute, hs, ha, hp, Command.emitCan,
            Command.emitExec, Command.canExecute, Command.isExecuting]
        · cases hc : c.allowConcurrent
          · have hx : (c.isExecuting && !c.allowConcurrent) = true := by
              simp [Command.isExecuting, hc, hp]
            simpa [Command.step, Command.execute, hs, ha, hx] using h
          · intro _
            simp [Command.step, Command.execute, hs, ha, hc, Command.emitCan,
              Command.emitExec, Command.canExecute, Command.isExecuting]
      · intro _
        have hh := h hs
        simp only [Command.step, Command.execute, hs, ha] at *
        simpa [Command.canExecute, Command.isExecuting] using hh
    · simpa [Command.step, Command.execute, hs] using h
  | settle ok =>
    by_cases hp : c.pending = 0
    · simpa [Command.step, Command.settle, hp] using h
    · by_cases hs : c.subscribed
      · intro _
        simp [Command.step, Command.settle, hp, hs, Command.emitCan,
          Command.emitExec, Command.canExecute, Command.isExecuting]
      · intro hs2
        simp [Command.step, Command.settle, hp, hs] at hs2
  | gate b =>
    by_cases hs : c.subscribed
    · intro _
      refine ⟨?_, ?_⟩
      · simp [Command.step, Command.gateUpdate, hs, Command.emitCan,
          Command.canExecute, Command.isExecuting]
      · have hh := (h hs).2
        simpa [Command.step, Command.gateUpdate, hs, Command.emitCan,
          Command.isExecuting] using hh
    · simpa [Command.step, Command.gateUpdate, hs] using h

theorem signalsInSync_run (c : Command) (h : SignalsInSync c)
    (es : List CEvent) : SignalsInSync (c.run es) := by
  induction es generalizing c with
  | nil => exact h
  | cons e es ih =>
    simp only [Command.run, List.foldl_cons] at *
    exact ih _ (signalsInSync_step c e h)

/-- A synchronous Command has no in-flight invocation and has never emitted
`isExecuting = true`. -/
def SyncNeverExecuting (c : Command) : Prop :=
  c.isAsync = false →
    c.pending = 0 ∧ c.isExecutingOut.all (fun b => !b) = true

theorem syncNeverExecuting_step (c : Command) (e : CEvent)
    (h : SyncNeverExecuting c) : SyncNeverExecuting (c.step e) := by
  intro haf
  have hca : c.isAsync = false := by rw [← step_isAsync c e]; exact haf
  have hc := h hca
  cases e with
  | subscribe =>
    by_cases hs : c.subscribed
    · simpa [Command.step, Command.subscribe, hs] using hc
    · simp [Command.step, Command.subscribe, hs, Command.emitCan,
        Command.emitExec, Command.isExecuting, hc.1, hc.2]
  | unsubscribe => simpa [Command.step, Command.unsubscribe] using hc
  | execute =>
    by_cases hs : c.subscribed
    · simp [Command.step, Command.execute, hs, hca, hc.1, hc.2]
    · simpa [Command.step, Command.execute, hs] using hc
  | settle ok => simp [Command.step, Command.settle, hc.1, hc.2]
  | gate b =>
    by_cases hs : c.subscribed <;>
      simp [Command.step, Command.gateUpdate, hs, Command.emitCan,
        hc.1, hc.2]

theorem syncNeverExecuting_run (c : Command) (h : SyncNeverExecuting c)
    (es : List CEvent) : SyncNeverExecuting (c.run es) := by
  induction es generalizing c with
  | nil => exact h
  | cons e es ih =>
    simp only [Command.run, List.foldl_cons] at *
    exact ih _ (syncNeverExecuting_step c e h)

/-! ## The claims -/

/-- C1: for every Command, at every observable point (i.e. after any sequence
of transitions from a freshly constructed Command, while subscribed), the most
recently emitted `canExecute` value equals
`executabilityGate AND (allowConcurrentExecution OR NOT isExecuting)`. -/
theorem canExecute_equals_gate_and_not_executing
    (a ia g : Bool) (es : List CEvent)
    (h : (Command.run (Command.init a ia g) es).subscribed = true) :
    (Command.run (Command.init a ia g) es).canExecuteOut.head? =
      some ((Command.run (Command.init a ia g) es).gate &&
        (a || !(Command.run (Command.init a ia g) es).isExecuting)) := by
  have hinit : SignalsInSync (Command.init a ia g) := by
    intro hs
    simp [Command.init] at hs
  have hrun := signalsInSync_run (Command.init a ia g) hinit es h
  have hac : (Command.run (Command.init a ia g) es).allowConcurrent = a :=
    run_allowConcurrent (Command.init a ia g) es
  rw [hrun.1, Command.canExecute, hac]

/-- C1 witness: gate true, concurrency disallowed, one async execution
started; the last emitted `canExecute` is `true && (false || !true)`. -/
theorem canExecute_equals_gate_and_not_executing_witness :
    (Command.run (Command.init false true true)
        [CEvent.subscribe, CEvent.execute]).canExecuteOut.head? =
      some ((Command.run (Command.init false true true)
          [CEvent.subscribe, CEvent.execute]).gate &&
        (false || !(Command.run (Command.init false true true)
            [CEvent.subscribe, CEvent.execute]).isExecuting)) :=
  canExecute_equals_gate_and_not_executing false true true
    [CEvent.subscribe, CEvent.execute] (by decide)

/-- C2: on an asynchronous Command with concurrency disallowed, `execute`
while already executing is a complete no-op: the state is unchanged, so the
action is not invoked again, nothing is emitted on either signal, and
`isExecuting` stays true. -/
theorem execute_suppressed_while_executing (c : Command)
    (h1 : c.isAsync = true) (h2 : c.allowConcurrent = false)
    (h3 : c.isExecuting = true) :
    c.execute = c ∧
    c.execute.invocations = c.invocations ∧
    c.execute.canExecuteOut = c.canExecuteOut ∧
    c.execute.isExecutingOut = c.isExecutingOut ∧
    c.execute.isExecuting = true := by
  have hexec : c.execute = c := by
    unfold Command.execute
    split_ifs with hs ha hx
    · rfl
    · rw [h1] at ha; simp at ha
    · rfl
    · rw [h2, h3] at hx; simp at hx
  exact ⟨hexec, by rw [hexec], by rw [hexec], by rw [hexec], by rw [hexec, h3]⟩

/-- C2 witness: a subscribed asynchronous Command with one in-flight
invocation and concurrency disallowed ignores a second `execute`. -/
theorem execute_suppressed_while_executing_witness :
    (⟨false, true, true, 1, true, 1, 0, [false, true], [true, false]⟩ :
        Command).execute =
      (⟨false, true, true, 1, true, 1, 0, [false, true], [true, false]⟩ :
        Command) ∧
    (⟨false, true, true, 1, true, 1, 0, [false, true], [true, false]⟩ :
        Command).execute.invocations =
      (⟨false, true, true, 1, true, 1, 0, [false, true], [true, false]⟩ :
        Command).invocations ∧
    (⟨false, true, true, 1, true, 1, 0, [false, true], [true, false]⟩ :
        Command).execute.canExecuteOut =
      (⟨false, true, true, 1, true, 1, 0, [false, true], [true, false]⟩ :
        Command).canExecuteOut ∧
    (⟨false, true, true, 1, true, 1, 0, [false, true], [true, false]⟩ :
        Command).execute.isExecutingOut =
      (⟨false, true, true, 1, true, 1, 0, [false, true], [true, false]⟩ :
        Command).isExecutingOut ∧
    (⟨false, true, true, 1, true, 1, 0, [false, true], [true, false]⟩ :
        Command).execute.isExecuting = true :=
  execute_suppressed_while_executing
    ⟨false, true, true, 1, true, 1, 0, [false, true], [true, false]⟩
    rfl rfl rfl

/-- C3: a Command constructed with `isAsync = false` never has
`isExecuting = true` at any observable point — whatever sequence of events
runs, `isExecuting` is false, every value ever emitted on the `isExecuting`
signal is false, and `execute` still invokes the action immediately (one more
invocation) without toggling the flag. -/
theorem sync_command_never_executing (a g : Bool) (es : List CEvent)
    (hsub : (Command.run (Command.init a false g) es).subscribed = true) :
    (Command.run (Command.init a false g) es).isExecuting = false ∧
    (Command.run (Command.init a false g) es).isExecutingOut.all
      (fun b => !b) = true ∧
    (Command.run (Command.init a false g) es).execute.invocations =
      (Command.run (Command.init a false g) es).invocations + 1 ∧
    (Command.run (Command.init a false g) es).execute.isExecuting = false := by
  have hia : (Command.run (Command.init a false g) es).isAsync = false :=
    run_isAsync (Command.init a false g) es
  have hinv := syncNeverExecuting_run (Command.init a false g)
    (fun _ => ⟨rfl, rfl⟩) es hia
  have hexec : (Command.run (Command.init a false g) es).execute =
      { Command.run (Command.init a false g) es with
        invocations := (Command.run (Command.init a false g) es).invocations
          + 1 } := by
    unfold Command.execute
    simp [hsub, hia]
  refine ⟨?_, hinv.2, ?_, ?_⟩
  · simp [Command.isExecuting, hinv.1]
  · rw [hexec]
  · rw [hexec]; simp [Command.isExecuting, hinv.1]

/-- C3 witness: a subscribed synchronous Command after two executions. -/
theorem sync_command_never_executing_witness :
    (Command.run (Command.init false false true)
        [CEvent.subscribe, CEvent.execute, CEvent.execute]).isExecuting
      = false ∧
    (Command.run (Command.init false false true)
        [CEvent.subscribe, CEvent.execute, CEvent.execute]).isExecutingOut.all
      (fun b => !b) = true ∧
    (Command.run (Command.init false false true)
        [CEvent.subscribe, CEvent.execute, CEvent.execute]).execute.invocations
      = (Command.run (Command.init false false true)
          [CEvent.subscribe, CEvent.execute,
            CEvent.execute]).invocations + 1 ∧
    (Command.run (Command.init false false true)
        [CEvent.subscribe, CEvent.execute, CEvent.execute]).execute.isExecuting
      = false :=
  sync_command_never_executing false true
    [CEvent.subscribe, CEvent.execute, CEvent.execute] (by decide)

/-- C4: when the single in-flight asynchronous action settles with failure,
`isExecuting` is cleared back to false, the state evolves exactly as on the
success path apart from the failure count, and a subsequent `execute` starts
again from the Idle state (the action runs once more and `isExecuting`
becomes true). -/
theorem failed_settlement_clears_executing (c : Command)
    (h1 : c.pending = 1) (h2 : c.isAsync = true) (h3 : c.subscribed = true) :
    (c.settle false).isExecuting = false ∧
    (c.settle false).isExecuting = (c.settle true).isExecuting ∧
    (c.settle false).pending = (c.settle true).pending ∧
    (c.settle false).isExecutingOut = (c.settle true).isExecutingOut ∧
    (c.settle false).canExecuteOut = (c.settle true).canExecuteOut ∧
    (c.settle false).errors = c.errors + 1 ∧
    (c.settle false).execute.invocations = (c.settle false).invocations + 1 ∧
    (c.settle false).execute.isExecuting = true := by
  have hset : ∀ ok : Bool, c.settle ok = Command.emitCan (Command.emitExec
      { c with
        pending := 0,
        errors := c.errors + (if ok then 0 else 1) }) := by
    intro ok
    unfold Command.settle
    simp [h1, h3]
  refine ⟨?_, ?_, ?_, ?_, ?_, ?_, ?_, ?_⟩ <;>
    simp [hset, Command.emitCan, Command.emitExec, Command.isExecuting,
      Command.canExecute, Command.execute, h2, h3]

/-- C4 witness: a subscribed asynchronous Command with one in-flight
invocation, settled with failure. -/
theorem failed_settlement_clears_executing_witness :
    ((⟨false, true, true, 1, true, 1, 0, [false, true], [true, false]⟩ :
        Command).settle false).isExecuting = false ∧
    ((⟨false, true, true, 1, true, 1, 0, [false, true], [true, false]⟩ :
        Command).settle false).isExecuting =
      ((⟨false, true, true, 1, true, 1, 0, [false, true], [true, false]⟩ :
        Command).settle true).isExecuting ∧
    ((⟨false, true, true, 1, true, 1, 0, [false, true], [true, false]⟩ :
        Command).settle false).pending =
      ((⟨false, true, true, 1, true, 1, 0, [false, true], [true, false]⟩ :
        Command).settle true).pending ∧
    ((⟨false, true, true, 1, true, 1, 0, [false, true], [true, false]⟩ :
        Command).settle false).isExecutingOut =
      ((⟨false, true, true, 1, true, 1, 0, [false, true], [true, false]⟩ :
        Command).settle true).isExecutingOut ∧
    ((⟨false, true, true, 1, true, 1, 0, [false, true], [true, false]⟩ :
        Command).settle false).canExecuteOut =
      ((⟨false, true, true, 1, true, 1, 0, [false, true], [true, false]⟩ :
        Command).settle true).canExecuteOut ∧
    ((⟨false, true, true, 1, true, 1, 0, [false, true], [true, false]⟩ :
        Command).settle false).errors =
      (⟨false, true, true, 1, true, 1, 0, [false, true], [true, false]⟩ :
        Command).errors + 1 ∧
    ((⟨false, true, true, 1, true, 1, 0, [false, true], [true, false]⟩ :
        Command).settle false).execute.invocations =
      ((⟨false, true, true, 1, true, 1, 0, [false, true], [true, false]⟩ :
        Command).settle false).invocations + 1 ∧
    ((⟨false, true, true, 1, true, 1, 0, [false, true], [true, false]⟩ :
        Command).settle false).execute.isExecuting = true :=
  failed_settlement_clears_executing
    ⟨false, true, true, 1, true, 1, 0, [false, true], [true, false]⟩
    rfl rfl rfl

/-- C5: after `unsubscribe`, every further event other than a re-subscription
leaves the emitted signal histories and the invocation count untouched;
`execute` in particular is a complete no-op, `unsubscribe` is idempotent, and
the directive's `ngOnDestroy` never throws, also when `ngOnInit` never ran
and the command is still `undefined`. -/
theorem unsubscribed_command_is_inert (c : Command) (cmdOpt : Option Command)
    (e : CEvent) (h : e ≠ CEvent.subscribe) :
    (c.unsubscribe.step e).canExecuteOut = c.unsubscribe.canExecuteOut ∧
    (c.unsubscribe.step e).isExecutingOut = c.unsubscribe.isExecutingOut ∧
    (c.unsubscribe.step e).invocations = c.unsubscribe.invocations ∧
    c.unsubscribe.execute = c.unsubscribe ∧
    c.unsubscribe.unsubscribe = c.unsubscribe ∧
    ∃ r, ngOnDestroy cmdOpt = Except.ok r := by
  have hexec : c.unsubscribe.execute = c.unsubscribe := by
    unfold Command.execute
    simp [Command.unsubscribe]
  have hidem : c.unsubscribe.unsubscribe = c.unsubscribe := rfl
  have hdestroy : ∃ r, ngOnDestroy cmdOpt = Except.ok r := by
    cases cmdOpt <;> simp [ngOnDestroy, jsMethodCall]
  cases e with
  | subscribe => exact absurd rfl h
  | unsubscribe => exact ⟨rfl, rfl, rfl, hexec, hidem, hdestroy⟩
  | execute =>
    refine ⟨?_, ?_, ?_, hexec, hidem, hdestroy⟩ <;>
      simp [Command.step, hexec]
  | settle ok =>
    refine ⟨?_, ?_, ?_, hexec, hidem, hdestroy⟩ <;>
      unfold Command.step Command.settle <;>
      simp [Command.unsubscribe] <;> split_ifs <;> rfl
  | gate b =>
    refine ⟨?_, ?_, ?_, hexec, hidem, hdestroy⟩ <;>
      unfold Command.step Command.gateUpdate <;>
      simp [Command.unsubscribe]

/-- C5 witness: an unsubscribed Command ignoring a click-triggered `execute`,
and teardown of a directive that was never initialized. -/
theorem unsubscribed_command_is_inert_witness :
    ((⟨true, true, true, 1, true, 2, 0, [false], [true]⟩ :
        Command).unsubscribe.step CEvent.execute).canExecuteOut =
      (⟨true, true, true, 1, true, 2, 0, [false], [true]⟩ :
        Command).unsubscribe.canExecuteOut ∧
    ((⟨true, true, true, 1, true, 2, 0, [false], [true]⟩ :
        Command).unsubscribe.step CEvent.execute).isExecutingOut =
      (⟨true, true, true, 1, true, 2, 0, [false], [true]⟩ :
        Command).unsubscribe.isExecutingOut ∧
    ((⟨true, true, true, 1, true, 2, 0, [false], [true]⟩ :
        Command).unsubscribe.step CEvent.execute).invocations =
      (⟨true, true, true, 1, true, 2, 0, [false], [true]⟩ :
        Command).unsubscribe.invocations ∧
    (⟨true, true, true, 1, true, 2, 0, [false], [true]⟩ :
        Command).unsubscribe.execute =
      (⟨true, true, true, 1, true, 2, 0, [false], [true]⟩ :
        Command).unsubscribe ∧
    (⟨true, true, true, 1, true, 2, 0, [false], [true]⟩ :
        Command).unsubscribe.unsubscribe =
      (⟨true, true, true, 1, true, 2, 0, [false], [true]⟩ :
        Command).unsubscribe ∧
    ∃ r, ngOnDestroy none = Except.ok r :=
  unsubscribed_command_is_inert
    ⟨true, true, true, 1, true, 2, 0, [false], [true]⟩ none
    CEvent.execute (by decide)

/-- Whether an `Except` result is a success. -/
def isOkE {α : Type} (r : Except String α) : Bool :=
  match r with
  | Except.ok _ => true
  | Except.error _ => false

/-- C6: `ngOnInit` fails fast exactly when the `[ssvCommand]` input is
`undefined` or neither a `Command` instance nor a well-formed command
creator; every valid input initializes successfully. -/
theorem ngOnInit_fails_fast (input : Option CommandInput) (dp : JsValue) :
    isOkE (ngOnInit input dp) = false ↔
      input = none ∨ input = some CommandInput.invalid := by
  cases input with
  | none => simp [ngOnInit, isOkE]
  | some i =>
    cases i <;> simp [ngOnInit, isOkE, isCommand, isCommandCreator]

/-- C6 witness: an `undefined` input, an invalid input and a valid creator
input, instantiated. -/
theorem ngOnInit_fails_fast_witness :
    (isOkE (ngOnInit none JsValue.undef) = false ↔
      (none = (none : Option CommandInput) ∨
        (none : Option CommandInput) = some CommandInput.invalid)) ∧
    (isOkE (ngOnInit (some CommandInput.invalid) JsValue.undef) = false ↔
      (some CommandInput.invalid = (none : Option CommandInput) ∨
        some CommandInput.invalid = some CommandInput.invalid)) :=
  ⟨ngOnInit_fails_fast none JsValue.undef,
    ngOnInit_fails_fast (some CommandInput.invalid) JsValue.undef⟩

/-- C7: the click handler passes the bound params through to
`command.execute` verbatim and unvalidated — an array value is spread into
separate positional arguments, any non-array value (including `undefined`)
is passed as a single argument. -/
theorem onClick_passes_params_verbatim (xs : List JsValue) (v : JsValue)
    (h : isArray v = false) :
    onClick (JsValue.arr xs) = xs ∧ onClick v = [v] := by
  constructor
  · simp [onClick, isArray]
  · simp [onClick, h]

/-- C7 witness: a two-element params array is spread; `undefined` params are
passed as one argument. -/
theorem onClick_passes_params_verbatim_witness :
    onClick (JsValue.arr [JsValue.num 1, JsValue.str "a"]) =
      [JsValue.num 1, JsValue.str "a"] ∧
    onClick JsValue.undef = [JsValue.undef] :=
  onClick_passes_params_verbatim [JsValue.num 1, JsValue.str "a"]
    JsValue.undef rfl

theorem disabledAfterInit_append (es : List Bool) (e : Bool) :
    disabledAfterInit (es ++ [e]) = !e := by
  simp [disabledAfterInit, List.foldl_append]

/-- C9: the directive starts disabled (`disabled` is true right after
`ngOnInit` before any `canExecute` emission), afterwards `disabled` always
equals the negation of the most recently emitted `canExecute` value, and the
host can only have become enabled after some emission carried `true`. -/
theorem disabled_tracks_canExecute (es : List Bool) (e : Bool)
    (h : disabledAfterInit es = false) :
    disabledAfterInit [] = true ∧
    disabledAfterInit (es ++ [e]) = !e ∧
    true ∈ es := by
  refine ⟨rfl, disabledAfterInit_append es e, ?_⟩
  induction es using List.reverseRecOn with
  | nil => simp [disabledAfterInit] at h
  | append_singleton xs x _ =>
    rw [disabledAfterInit_append] at h
    simp at h
    simp [h, List.mem_append]

/-- C9 witness: after a single `canExecute` emission of `true` the directive
is enabled; a further emission of `false` disables it again. -/
theorem disabled_tracks_canExecute_witness :
    disabledAfterInit [] = true ∧
    disabledAfterInit ([true] ++ [false]) = !false ∧
    true ∈ [true] :=
  disabled_tracks_canExecute [true] false rfl

/-- C10: the directive-level params win only when truthy — every falsy value
(`undefined`, `null`, `0`, the empty string, `false`) falls back to the
creator's params — and the created Command is asynchronous exactly when the
creator's `isAsync` field is `true` or absent (an explicit `false` yields a
synchronous Command). -/
theorem params_fallback_and_isAsync_default (dpF dpT : JsValue)
    (cr : CommandCreator) (hF : truthy dpF = false) (hT : truthy dpT = true) :
    (initFromCreator dpF cr).2 = cr.params ∧
    (initFromCreator dpT cr).2 = dpT ∧
    ((initFromCreator dpF cr).1.isAsync = true ↔
      (cr.isAsync = some true ∨ cr.isAsync = none)) ∧
    truthy JsValue.undef = false ∧
    truthy JsValue.null = false ∧
    truthy (JsValue.num 0) = false ∧
    truthy (JsValue.str "") = false ∧
    truthy (JsValue.bool false) = false := by
  refine ⟨?_, ?_, ?_, rfl, rfl, by decide, rfl, rfl⟩
  · simp [initFromCreator, jsOr, hF]
  · simp [initFromCreator, jsOr, hT]
  · rcases hA : cr.isAsync with _ | b
    · simp [initFromCreator, hA]
    · cases b <;> simp [initFromCreator, hA]

/-- C10 witness: `undefined` directive params fall back to the creator's
`"ps"`, truthy `2` wins, and an explicit `isAsync = false` yields a
synchronous Command. -/
theorem params_fallback_and_isAsync_default_witness :
    (initFromCreator JsValue.undef
        ⟨JsValue.obj 0, 7, none, JsValue.str "ps", some false⟩).2 =
      (⟨JsValue.obj 0, 7, none, JsValue.str "ps", some false⟩ :
        CommandCreator).params ∧
    (initFromCreator (JsValue.num 2)
        ⟨JsValue.obj 0, 7, none, JsValue.str "ps", some false⟩).2 =
      JsValue.num 2 ∧
    ((initFromCreator JsValue.undef
        ⟨JsValue.obj 0, 7, none, JsValue.str "ps", some false⟩).1.isAsync
        = true ↔
      ((⟨JsValue.obj 0, 7, none, JsValue.str "ps", some false⟩ :
          CommandCreator).isAsync = some true ∨
        (⟨JsValue.obj 0, 7, none, JsValue.str "ps", some false⟩ :
          CommandCreator).isAsync = none)) ∧
    truthy JsValue.undef = false ∧
    truthy JsValue.null = false ∧
    truthy (JsValue.num 0) = false ∧
    truthy (JsValue.str "") = false ∧
    truthy (JsValue.bool false) = false :=
  params_fallback_and_isAsync_default JsValue.undef (JsValue.num 2)
    ⟨JsValue.obj 0, 7, none, JsValue.str "ps", some false⟩ rfl rfl

/-- The claim's reading of the creator factory: the Command's action would be
the creator's `execute` bound to the host with the effective params curried
at bind time (compare with what `initFromCreator` actually builds). -/
def claimedActionOf (cr : CommandCreator) (effParams : JsValue) : BoundFn :=
  bindFn cr.execute cr.host [effParams]

/-- A concrete creator whose `canExecute` is absent and whose params are the
string `"ps"`. -/
def creatorPlainParams : CommandCreator :=
  ⟨JsValue.obj 0, 7, none, JsValue.str "ps", some true⟩

/-- C8 counterexample: for `creatorPlainParams` the action built by
`ngOnInit` is `execute.bind(host)` with nothing curried, not the claimed
`execute.bind(host, params)` — the params are not curried into the action at
bind time. -/
theorem creator_action_without_curried_params :
    (initFromCreator JsValue.undef creatorPlainParams).1.execFn ≠
      claimedActionOf creatorPlainParams
        (initFromCreator JsValue.undef creatorPlainParams).2 := by
  simp [initFromCreator, claimedActionOf, bindFn, jsOr, truthy,
    creatorPlainParams]

/-- A concrete creator whose `canExecute` is a function. -/
def creatorWithFnGate : CommandCreator :=
  ⟨JsValue.obj 1, 3, some (CanExec.fn 4), JsValue.arr [JsValue.num 1], none⟩

/-- A concrete creator whose `canExecute` is a plain value. -/
def creatorWithValGate : CommandCreator :=
  ⟨JsValue.obj 2, 5, some (CanExec.val (JsValue.bool true)), JsValue.undef,
    some true⟩

/-- C8 (amended): initialization produces a Command whose action is the
creator's `execute` bound to the host object with nothing curried; the
effective params (the directive's own when truthy, else the creator's) are
instead stored on the directive and spread into `execute` when the click
triggers it, so a click invokes the creator's `execute` on the host with
exactly those params; the executability gate is `canExecute` bound to the
host with the effective params curried and immediately invoked when
`canExecute` is a function, and `canExecute` itself otherwise. -/
theorem creator_factory_binds_host_only (cr crv : CommandCreator)
    (dp : JsValue) (f : Nat) (v : JsValue)
    (hf : cr.canExecute = some (CanExec.fn f))
    (hv : crv.canExecute = some (CanExec.val v)) :
    (initFromCreator dp cr).1.execFn = bindFn cr.execute cr.host [] ∧
    (initFromCreator dp cr).2 = jsOr dp cr.params ∧
    (initFromCreator dp cr).1.canExec =
      GateSpec.callOf (bindFn f cr.host [(initFromCreator dp cr).2]) ∧
    (initFromCreator dp crv).1.canExec =
      GateSpec.plain (some (CanExec.val v)) ∧
    invokeBound (initFromCreator dp cr).1.execFn
        (onClick ((initFromCreator dp cr).2)) =
      ⟨cr.execute, cr.host, onClick ((initFromCreator dp cr).2)⟩ := by
  refine ⟨rfl, ?_, ?_, ?_, ?_⟩
  · simp [initFromCreator, hf]
  · simp [initFromCreator, hf]
  · simp [initFromCreator, hv]
  · simp [invokeBound, initFromCreator, bindFn]

/-- C8 witness: the amended factory behaviour at two concrete creators, one
with a function gate and one with a plain-value gate. -/
theorem creator_factory_binds_host_only_witness :
    (initFromCreator JsValue.undef creatorWithFnGate).1.execFn =
      bindFn creatorWithFnGate.execute creatorWithFnGate.host [] ∧
    (initFromCreator JsValue.undef creatorWithFnGate).2 =
      jsOr JsValue.undef creatorWithFnGate.params ∧
    (initFromCreator JsValue.undef creatorWithFnGate).1.canExec =
      GateSpec.callOf (bindFn 4 creatorWithFnGate.host
        [(initFromCreator JsValue.undef creatorWithFnGate).2]) ∧
    (initFromCreator JsValue.undef creatorWithValGate).1.canExec =
      GateSpec.plain (some (CanExec.val (JsValue.bool true))) ∧
    invokeBound (initFromCreator JsValue.undef creatorWithFnGate).1.execFn
        (onClick ((initFromCreator JsValue.undef creatorWithFnGate).2)) =
      ⟨creatorWithFnGate.execute, creatorWithFnGate.host,
        onClick ((initFromCreator JsValue.undef creatorWithFnGate).2)⟩ :=
  creator_factory_binds_host_only creatorWithFnGate creatorWithValGate
    JsValue.undef 4 (JsValue.bool true) rfl rfl

end NgxCommand
